import Mathlib

/-!
Verification of the jifbox provider/OAuth core (`src/web.py`) against its
natural-language specification.  The Python code is shallowly embedded:
the per-service config document is an association list of Python-like
values, MongoDB persistence is an explicit second copy of the document,
exceptions are `Except`/`Option` errors, and the `giffed` dispatch loop is
a recursive function that also records an event trace (availability check,
enablement check, process call) so that dispatch-order claims can be
stated.
-/

set_option autoImplicit false

namespace Jifbox

/-- Python values as they occur in a service's config document:
`None`, strings, and lists of strings (the Tumblr access token is stored
as `list(access_token)`). -/
inductive PyVal where
  | none
  | str (s : String)
  | list (xs : List String)
deriving DecidableEq, Repr

/-- Python truthiness (`bool(v)`) for the values above: `None`, the empty
string and the empty list are falsy. -/
def truthy : PyVal → Bool
  | .none => false
  | .str s => !s.isEmpty
  | .list xs => !xs.isEmpty

/-- A service's config document (`self._config`): a finite map from field
names to values, modelled as an association list with unique keys kept by
construction of the operations below. -/
abbrev Config := List (String × PyVal)

/-- Lookup of a field in a config document (first binding wins; the
operations below keep keys unique, matching a Python dict). -/
def lookupC (cfg : Config) (k : String) : Option PyVal :=
  match cfg with
  | [] => Option.none
  | (k0, v0) :: rest => if k0 = k then some v0 else lookupC rest k

/-- `self._config.get(key)` — Python `dict.get` returns `None` when the
key is absent (this is `Service.__getitem__`). -/
def getitem (cfg : Config) (k : String) : PyVal :=
  match lookupC cfg k with
  | some v => v
  | Option.none => PyVal.none

/-- `key in self._config`. -/
def hasKey (cfg : Config) (k : String) : Bool :=
  (lookupC cfg k).isSome

/-- `self._config[key] = value`: replace the binding for `k`, or append it. -/
def dictSet (cfg : Config) (k : String) (v : PyVal) : Config :=
  match cfg with
  | [] => [(k, v)]
  | (k0, v0) :: rest =>
    if k0 = k then (k, v) :: rest else (k0, v0) :: dictSet rest k v

/-- `del self._config[key]`. -/
def dictDel (cfg : Config) (k : String) : Config :=
  match cfg with
  | [] => []
  | (k0, v0) :: rest =>
    if k0 = k then dictDel rest k else (k0, v0) :: dictDel rest k

/-- The single error the spec's ConfigStore reports on a failed
persistence write. -/
inductive PersErr where
  | persistenceError
deriving DecidableEq, Repr

/-- A service's state: the in-memory document `self._config` and the copy
held by the MongoDB collection (`mongo.services`). -/
structure SvcState where
  mem : Config
  store : Config
deriving DecidableEq, Repr

/-- `mongo.services.save(self._config)`: when the write succeeds the
persisted copy becomes the in-memory document; `saveOk = false` models the
store rejecting the write, which in Python raises out of `save`. -/
def mongoSave (saveOk : Bool) (st : SvcState) : SvcState × Option PersErr :=
  if saveOk then ({ st with store := st.mem }, Option.none)
  else (st, some PersErr.persistenceError)

/-- `Service.__setitem__` as written: mutate the in-memory dict first,
then call `save`.  The returned state is the state after the call even
when the save raised (second component `some` error). -/
def setitem (saveOk : Bool) (st : SvcState) (k : String) (v : PyVal) :
    SvcState × Option PersErr :=
  let st1 : SvcState := { st with mem := dictSet st.mem k v }
  mongoSave saveOk st1

/-- `Service.__delitem__` as written: if the key is present, delete it
from the in-memory dict first, then call `save`; if absent, do nothing. -/
def delitem (saveOk : Bool) (st : SvcState) (k : String) :
    SvcState × Option PersErr :=
  if hasKey st.mem k then
    mongoSave saveOk { st with mem := dictDel st.mem k }
  else (st, Option.none)

/-- `is_enabled` shared by `DropboxService` and `TumblrService`:
`bool(self['access_token'])`. -/
def is_enabled (cfg : Config) : Bool :=
  truthy (getitem cfg "access_token")

/-- The spec's wording for enablement, written from the spec and not from
the code: the access-credential field is present and its value is
non-empty (a stored `None`, empty string or empty list counts as empty). -/
def enabledSpec (cfg : Config) : Prop :=
  ∃ v, lookupC cfg "access_token" = some v ∧ truthy v = true

instance (cfg : Config) : Decidable (enabledSpec cfg) :=
  match h : lookupC cfg "access_token" with
  | some v =>
    match hv : truthy v with
    | true => isTrue ⟨v, h, hv⟩
    | false =>
      isFalse (by rintro ⟨w, hw, hwt⟩; rw [h] at hw; cases hw; rw [hv] at hwt; cases hwt)
  | Option.none =>
    isFalse (by rintro ⟨w, hw, hwt⟩; rw [h] at hw; cases hw)

/-! ### The dispatch loop (`giffed`, lines 179-198) -/

/-- The payload built by `giffed`: `{filename, data, timestamp}`. -/
structure Payload where
  filename : String
  data : String
  timestamp : String
deriving DecidableEq, Repr

/-- A provider-side failure raised out of `process` (e.g. the Dropbox or
Tumblr client failing); in Python it is an ordinary exception. -/
inductive ProcErr where
  | procError (msg : String)
deriving DecidableEq, Repr

/-- A registered service as the dispatch loop sees it: the two checked
properties and the `process` call, whose outcome may be an exception. -/
structure MService where
  is_available : Bool
  is_enabled : Bool
  process : Payload → Except ProcErr PyVal

/-- Events of one pass of the `giffed` loop: reading `is_available`,
reading `is_enabled`, and calling `process`, in program order. -/
inductive Ev where
  | checkAvail (sid : String) (r : Bool)
  | checkEnabled (sid : String) (r : Bool)
  | callProcess (sid : String)
deriving DecidableEq, Repr

/-- The body of `giffed` (lines 192-196): iterate over the registry, and
for each service test `service.is_available and service.is_enabled`
(Python `and` short-circuits, so `is_enabled` is read only when
`is_available` is truthy), call `process`, and insert the result into
`response['active_services']` only when it is truthy.  There is no
`try`/`except`: an exception from `process` aborts the loop and escapes
`giffed`, so the partially built response is never returned — modelled by
the `Except` result.  The event trace is returned alongside. -/
def giffedLoop : List (String × MService) → Payload →
    List Ev × Except ProcErr (List (String × PyVal))
  | [], _ => ([], Except.ok [])
  | (sid, s) :: rest, p =>
    if s.is_available then
      if s.is_enabled then
        match s.process p with
        | Except.error e =>
          ([Ev.checkAvail sid true, Ev.checkEnabled sid true, Ev.callProcess sid],
           Except.error e)
        | Except.ok meta =>
          match giffedLoop rest p with
          | (evs, Except.error e) =>
            ([Ev.checkAvail sid true, Ev.checkEnabled sid true, Ev.callProcess sid] ++ evs,
             Except.error e)
          | (evs, Except.ok m) =>
            ([Ev.checkAvail sid true, Ev.checkEnabled sid true, Ev.callProcess sid] ++ evs,
             Except.ok (if truthy meta then (sid, meta) :: m else m))
      else
        match giffedLoop rest p with
        | (evs, res) => ([Ev.checkAvail sid true, Ev.checkEnabled sid false] ++ evs, res)
    else
      match giffedLoop rest p with
      | (evs, res) => ([Ev.checkAvail sid false] ++ evs, res)

/-! ### `DropboxService.__init__` (lines 68-75) -/

/-- `Service.register` (lines 39-46): load the persisted document for the
service id, or create and persist a fresh `{service_id: ...}` document. -/
def register (sid : String) (stored : Option Config) : Config :=
  match stored with
  | some doc => doc
  | Option.none => [("service_id", PyVal.str sid)]

/-- `DropboxService.__init__` (lines 68-75): after registration, read
`DROPBOX_TOKEN` from the environment; if truthy, store it via
`self['access_token'] = access_token`, which persists it (saves assumed
to succeed here; persistence failure is the subject of `setitem`).
Returns the in-memory/persisted service state. -/
def dropboxInit (env : String → Option String) (stored : Option Config) : SvcState :=
  let cfg := register "dropbox" stored
  let st : SvcState := { mem := cfg, store := cfg }
  match env "DROPBOX_TOKEN" with
  | some t => if !t.isEmpty then (setitem true st "access_token" (PyVal.str t)).1 else st
  | Option.none => st

/-! ### `process` of the two providers (lines 85-88 and 109-122) -/

/-- The application-level error taxonomy the spec names for `process`:
`NotConfiguredError` (never raised anywhere in `web.py` — the constructor
exists only so the claim can be stated) and an external failure coming
from the third-party client. -/
inductive AppErr where
  | notConfiguredError
  | externalError (msg : String)
deriving DecidableEq, Repr

/-- `DropboxService.process` (lines 85-88): no availability or enablement
check at all — it constructs `DropboxClient(self['access_token'])` with
whatever is stored (possibly `None`) and calls `put_file`.  The client is
external, so its behaviour is a parameter `putFile`; any failure it
raises is an external exception, never `NotConfiguredError`. -/
def dropboxProcess (putFile : PyVal → Payload → Except String PyVal)
    (cfg : Config) (p : Payload) : Except AppErr PyVal :=
  match putFile (getitem cfg "access_token") p with
  | Except.ok meta => Except.ok meta
  | Except.error m => Except.error (AppErr.externalError m)

/-- `TumblrService.process` (lines 109-122): likewise no check — it hands
`self['access_token']` to `flow.get_session` and posts; the session and
post are external, parameterised by `post`. -/
def tumblrProcess (post : PyVal → Payload → Except String PyVal)
    (cfg : Config) (p : Payload) : Except AppErr PyVal :=
  match post (getitem cfg "access_token") p with
  | Except.ok meta => Except.ok meta
  | Except.error m => Except.error (AppErr.externalError m)

/-! ### `dropbox_callback` (lines 215-235) -/

/-- The five failure modes of the OAuth2 `finish` call, as raised by
`DropboxOAuth2Flow`. -/
inductive OAuth2Err where
  | badRequest
  | badState
  | csrf
  | notApproved
  | providerErr
deriving DecidableEq, Repr

/-- The externally visible outcome of a settings/callback route: an HTTP
error status via `abort(n)`, or a redirect (the NotApproved arm also
flashes a message before redirecting). -/
inductive Resp where
  | status (n : Nat)
  | redirectTo (target : String)
  | flashRedirect (msg : String) (target : String)
deriving DecidableEq, Repr

/-- Uncaught Python exceptions that can escape the `dropbox_callback`
handler: the `NameError` from the undefined `get_auth_flow`, the Flask
`BuildError` from `url_for` on an unregistered endpoint, and the
`TypeError` from concatenating a string with an exception object.  None
of these is a `DropboxOAuth2Flow` exception, so none is caught by the
handler's `except` clauses. -/
inductive PyExc where
  | nameError (n : String)
  | buildError (endpoint : String)
  | typeError (msg : String)
deriving DecidableEq, Repr

/-- The module-level names defined in `web.py` (imports, lines 1-12, and
definitions): `get_auth_flow` is NOT among them — only
`dropbox_auth_flow` (line 142) exists. -/
def webModuleNames : List String :=
  ["datetime", "os", "urlparse", "DropboxClient", "DropboxOAuth2Flow",
   "Flask", "abort", "flash", "jsonify", "redirect", "render_template",
   "request", "session", "url_for", "MongoClient", "OAuth1Service",
   "mongo_url", "mongo_conn", "mongo_params", "mongo",
   "Service", "DropboxService", "TumblrService", "JIFBOXService", "services",
   "dropbox_auth_flow", "tumblr_auth_flow", "app",
   "index", "giffed", "settings",
   "dropbox_auth", "dropbox_callback", "dropbox_logout",
   "tumblr_auth", "tumblr_callback", "tumblr_logout"]

/-- Python name resolution at a call site: a name that is defined nowhere
raises `NameError`. -/
def resolveName (n : String) : Except PyExc Unit :=
  if webModuleNames.contains n then Except.ok () else Except.error (PyExc.nameError n)

/-- The Flask endpoints registered with `@app.route` in `web.py`; there
is no `home` endpoint. -/
def appEndpoints : List String :=
  ["index", "giffed", "settings",
   "dropbox_auth", "dropbox_callback", "dropbox_logout",
   "tumblr_auth", "tumblr_callback", "tumblr_logout"]

/-- `url_for(endpoint)`: Flask raises `BuildError` for an endpoint that
is not registered. -/
def url_for (endpoint : String) : Except PyExc String :=
  if appEndpoints.contains endpoint then Except.ok endpoint
  else Except.error (PyExc.buildError endpoint)

/-- `dropbox_callback` (lines 215-235) as written.  Line 219 first
resolves the name `get_auth_flow`, which is defined nowhere in `web.py`:
the lookup raises `NameError`, which none of the
`except DropboxOAuth2Flow...` clauses catches, so the exception escapes
the handler on every invocation, before `finish` can run.  The remaining
arms embed the rest of the body: had the name resolved, the `finish`
outcome (the parameter) would be dispatched by the `except` clauses —
`BadRequestException` and `BadStateException` to `abort(400)`,
`CsrfException` to `abort(403)`, `NotApprovedException` to `flash` and
then `redirect(url_for('home'))`, where `url_for` raises `BuildError`
(`home` is not a registered endpoint), and `ProviderException` to
`app.logger.exception("Auth error" + e)`, which raises `TypeError`
(string + exception) before its `abort(403)` is reached; on success the
token is stored and the user redirected to `settings` (which is
registered). -/
def dropbox_callback (finish : Except OAuth2Err String) (cfg : Config) :
    Config × Except PyExc Resp :=
  match resolveName "get_auth_flow" with
  | Except.error exc => (cfg, Except.error exc)
  | Except.ok _ =>
    match finish with
    | Except.error OAuth2Err.badRequest => (cfg, Except.ok (Resp.status 400))
    | Except.error OAuth2Err.badState => (cfg, Except.ok (Resp.status 400))
    | Except.error OAuth2Err.csrf => (cfg, Except.ok (Resp.status 403))
    | Except.error OAuth2Err.notApproved =>
      match url_for "home" with
      | Except.error exc => (cfg, Except.error exc)
      | Except.ok target =>
        (cfg, Except.ok (Resp.flashRedirect "Not approved?  Why not" target))
    | Except.error OAuth2Err.providerErr =>
      (cfg, Except.error (PyExc.typeError "cannot concatenate str and exception"))
    | Except.ok access_token =>
      match url_for "settings" with
      | Except.error exc =>
        (dictSet cfg "access_token" (PyVal.str access_token), Except.error exc)
      | Except.ok target =>
        (dictSet cfg "access_token" (PyVal.str access_token),
         Except.ok (Resp.redirectTo target))

/-- What Flask makes externally visible to the interactive caller: the
handler's own response when it returns (or aborts), and a uniform
`500 Internal Server Error` when an exception escapes the handler. -/
def wsgiResp : Except PyExc Resp → Resp
  | Except.ok r => r
  | Except.error _ => Resp.status 500

/-! ### `tumblr_callback` (lines 261-285) -/

/-- Python truthiness of `request.args.get(name)`: `None` when the query
parameter is missing, falsy also when it is the empty string. -/
def argTruthy : Option String → Bool
  | some s => !s.isEmpty
  | Option.none => false

/-- An error raised by the external `flow.get_access_token` exchange. -/
inductive ExtErr where
  | extErr (msg : String)
deriving DecidableEq, Repr

/-- `tumblr_callback` (lines 261-285), with the behaviour of the external
`flow.get_access_token` as the parameter `getAccessToken` (applied to the
stored request token, stored request secret, and the verifier).  When
either query parameter is falsy the whole body is skipped and the user is
redirected to settings.  Otherwise the exchange runs: on success the
access token is stored as a list and the two request-token fields are
deleted; if the exchange raises, the exception escapes the handler and no
config mutation has happened (the deletes come after the exchange).
Saves are assumed to succeed, so only the document is tracked. -/
def tumblr_callback (getAccessToken : PyVal → PyVal → String → Except ExtErr (List String))
    (oauth_token oauth_verifier : Option String) (cfg : Config) :
    Config × Except ExtErr Resp :=
  if argTruthy oauth_token && argTruthy oauth_verifier then
    match getAccessToken (getitem cfg "request_token") (getitem cfg "request_secret")
        (oauth_verifier.getD "") with
    | Except.error e => (cfg, Except.error e)
    | Except.ok access_token =>
      let cfg1 := dictSet cfg "access_token" (PyVal.list access_token)
      let cfg2 := dictDel cfg1 "request_token"
      let cfg3 := dictDel cfg2 "request_secret"
      (cfg3, Except.ok (Resp.redirectTo "settings"))
  else (cfg, Except.ok (Resp.redirectTo "settings"))

/-! ## Helper lemmas about config-document operations -/

theorem lookupC_dictSet_self (cfg : Config) (k : String) (v : PyVal) :
    lookupC (dictSet cfg k v) k = some v := by
  induction cfg with
  | nil => simp [dictSet, lookupC]
  | cons hd tl ih =>
    obtain ⟨k0, v0⟩ := hd
    by_cases h : k0 = k
    · simp [dictSet, h, lookupC]
    · simp [dictSet, h, lookupC, ih]

theorem lookupC_dictDel_self (cfg : Config) (k : String) :
    lookupC (dictDel cfg k) k = Option.none := by
  induction cfg with
  | nil => simp [dictDel, lookupC]
  | cons hd tl ih =>
    obtain ⟨k0, v0⟩ := hd
    by_cases h : k0 = k
    · simp [dictDel, h, ih]
    · simp [dictDel, h, lookupC, ih]

theorem lookupC_dictDel_ne (cfg : Config) (k k' : String) (h : k ≠ k') :
    lookupC (dictDel cfg k') k = lookupC cfg k := by
  induction cfg with
  | nil => simp [dictDel]
  | cons hd tl ih =>
    obtain ⟨k0, v0⟩ := hd
    by_cases h0 : k0 = k'
    · simp [dictDel, h0, lookupC, Ne.symm h, ih]
    · simp [dictDel, h0, lookupC, ih]

theorem lookupC_dictSet_ne (cfg : Config) (k k' : String) (v : PyVal) (h : k ≠ k') :
    lookupC (dictSet cfg k' v) k = lookupC cfg k := by
  induction cfg with
  | nil => simp [dictSet, lookupC, Ne.symm h]
  | cons hd tl ih =>
    obtain ⟨k0, v0⟩ := hd
    by_cases h0 : k0 = k'
    · have hk0 : k0 ≠ k := by rw [h0]; exact Ne.symm h
      simp [dictSet, h0, lookupC, hk0, Ne.symm h]
    · simp [dictSet, h0, lookupC, ih]

/-! ## Claim C3 -/

/-- Claim C3: for every provider (Dropbox and Tumblr define `is_enabled`
identically as `bool(self['access_token'])`) and every state of its
persisted config, `is_enabled` is true iff the `access_token` field is
present and non-empty. -/
theorem is_enabled_iff_token_present_nonempty (cfg : Config) :
    is_enabled cfg = true ↔ enabledSpec cfg := by
  unfold is_enabled enabledSpec getitem
  cases h : lookupC cfg "access_token" with
  | none =>
    simp only [truthy]
    constructor
    · intro ht; cases ht
    · rintro ⟨w, hw, hwt⟩; cases hw
  | some v =>
    constructor
    · intro ht; exact ⟨v, rfl, ht⟩
    · rintro ⟨w, hw, hwt⟩; cases hw; exact hwt

/-! ## Claim C2 -/

/-- A service state whose in-memory and persisted documents agree and hold
an old credential, used to exercise a failed persistence write. -/
def cexStC2 : SvcState :=
  { mem := [("access_token", PyVal.str "old")],
    store := [("access_token", PyVal.str "old")] }

/-- Claim C2 counterexample: when the persistence write fails,
`Service.__setitem__` has already applied the in-memory mutation — the
in-memory document is NOT equal to its pre-call value, so the claimed
rollback does not happen. -/
theorem setitem_failed_save_mutates_memory :
    (setitem false cexStC2 "access_token" (PyVal.str "new")).1.mem ≠ cexStC2.mem ∧
    getitem (setitem false cexStC2 "access_token" (PyVal.str "new")).1.mem "access_token"
      = PyVal.str "new" := by
  exact ⟨by decide, by decide⟩

/-- Claim C2 (amended): `__setitem__` and `__delitem__` mutate the
in-memory document first and then persist (commit-then-write).  When the
persistence write fails, the error is reported, but the in-memory
document already holds the mutation (the new value, resp. the deletion,
is in effect), and only the persisted copy retains the pre-call state. -/
theorem config_mutation_not_rolled_back (st : SvcState) (k : String) (v : PyVal)
    (hk : hasKey st.mem k = true) :
    ((setitem false st k v).2 = some PersErr.persistenceError ∧
      getitem (setitem false st k v).1.mem k = v ∧
      (setitem false st k v).1.store = st.store) ∧
    ((delitem false st k).2 = some PersErr.persistenceError ∧
      hasKey (delitem false st k).1.mem k = false ∧
      (delitem false st k).1.store = st.store) := by
  constructor
  · refine ⟨rfl, ?_, rfl⟩
    unfold setitem mongoSave getitem
    simp [lookupC_dictSet_self]
  · have hk' : (lookupC st.mem k).isSome = true := hk
    unfold delitem mongoSave hasKey
    simp [hk', lookupC_dictDel_self]

/-- Witness for the amended C2 theorem at a concrete state. -/
theorem config_mutation_not_rolled_back_witness :
    ((setitem false cexStC2 "access_token" (PyVal.str "new")).2
        = some PersErr.persistenceError ∧
      getitem (setitem false cexStC2 "access_token" (PyVal.str "new")).1.mem "access_token"
        = PyVal.str "new" ∧
      (setitem false cexStC2 "access_token" (PyVal.str "new")).1.store = cexStC2.store) ∧
    ((delitem false cexStC2 "access_token").2 = some PersErr.persistenceError ∧
      hasKey (delitem false cexStC2 "access_token").1.mem "access_token" = false ∧
      (delitem false cexStC2 "access_token").1.store = cexStC2.store) :=
  config_mutation_not_rolled_back cexStC2 "access_token" (PyVal.str "new") (by decide)

/-! ## Claim C7 -/

/-- Claim C7 counterexample: the externally visible outcome of the OAuth2
callback is NOT distinct per failure mode — the handler raises
`NameError` on the undefined `get_auth_flow` before `finish` runs, so
every failure mode is surfaced as the same uncaught-exception 500 and
the map from failure mode to externally visible response is not
injective (concretely, bad-request and bad-state invocations are
indistinguishable). -/
theorem dropbox_callback_statuses_not_distinct :
    ¬ Function.Injective
        (fun e => wsgiResp (dropbox_callback (Except.error e) ([] : Config)).2) := by
  intro hinj
  have h : OAuth2Err.badRequest = OAuth2Err.badState := hinj rfl
  cases h

/-- Claim C7 (amended): no OAuth2 failure mode is surfaced with a
distinct status — every invocation of `dropbox_callback`, whatever the
`finish` outcome would have been, raises `NameError` on the undefined
`get_auth_flow` before `finish` can run; the exception is caught by no
`except` clause, so all five failure modes (and the success path alike)
escape as the same uncaught exception, are surfaced to the interactive
caller as an identical 500 response, and the config is never written. -/
theorem dropbox_callback_uniform_500 (finish : Except OAuth2Err String) (cfg : Config) :
    dropbox_callback finish cfg
      = (cfg, Except.error (PyExc.nameError "get_auth_flow")) ∧
    wsgiResp (dropbox_callback finish cfg).2 = Resp.status 500 := by
  constructor <;> rfl

/-! ## Claim C9 -/

/-- Claim C9: when `DROPBOX_TOKEN` is set non-empty in the environment,
`DropboxService.__init__` stores it as the `access_token` field (for any
previously stored document, i.e. overwriting any previous credential),
persists it (in-memory and stored copies agree), and the provider is
thereby enabled without any OAuth flow having run. -/
theorem dropbox_env_token_enables (env : String → Option String)
    (stored : Option Config) (t : String)
    (henv : env "DROPBOX_TOKEN" = some t) (ht : t.isEmpty = false) :
    getitem (dropboxInit env stored).mem "access_token" = PyVal.str t ∧
    (dropboxInit env stored).store = (dropboxInit env stored).mem ∧
    is_enabled (dropboxInit env stored).mem = true := by
  unfold dropboxInit
  rw [henv]
  simp only [ht, Bool.not_false, if_true]
  unfold setitem mongoSave is_enabled getitem
  simp [lookupC_dictSet_self, truthy, ht]

/-- Witness for C9: a concrete environment carrying a token and a stored
document holding an older credential; construction overwrites it and
enables the provider. -/
theorem dropbox_env_token_enables_witness :
    getitem (dropboxInit
        (fun k => if k = "DROPBOX_TOKEN" then some "envtok" else Option.none)
        (some [("service_id", PyVal.str "dropbox"),
               ("access_token", PyVal.str "oldtok")])).mem "access_token"
      = PyVal.str "envtok" ∧
    (dropboxInit
        (fun k => if k = "DROPBOX_TOKEN" then some "envtok" else Option.none)
        (some [("service_id", PyVal.str "dropbox"),
               ("access_token", PyVal.str "oldtok")])).store
      = (dropboxInit
        (fun k => if k = "DROPBOX_TOKEN" then some "envtok" else Option.none)
        (some [("service_id", PyVal.str "dropbox"),
               ("access_token", PyVal.str "oldtok")])).mem ∧
    is_enabled (dropboxInit
        (fun k => if k = "DROPBOX_TOKEN" then some "envtok" else Option.none)
        (some [("service_id", PyVal.str "dropbox"),
               ("access_token", PyVal.str "oldtok")])).mem = true :=
  dropbox_env_token_enables
    (fun k => if k = "DROPBOX_TOKEN" then some "envtok" else Option.none)
    (some [("service_id", PyVal.str "dropbox"),
           ("access_token", PyVal.str "oldtok")])
    "envtok" (by decide) (by decide)

/-! ## Claim C10 -/

/-- Claim C10: when `oauth_token` or `oauth_verifier` is missing from the
OAuth1 callback request, the provider's config is left entirely unchanged
and the handler completes without error by redirecting to settings. -/
theorem tumblr_callback_missing_param_frame
    (gat : PyVal → PyVal → String → Except ExtErr (List String))
    (tok ver : Option String) (cfg : Config)
    (h : tok = Option.none ∨ ver = Option.none) :
    tumblr_callback gat tok ver cfg = (cfg, Except.ok (Resp.redirectTo "settings")) := by
  rcases h with h | h <;> subst h <;>
    simp [tumblr_callback, argTruthy]

/-- Witness for C10 at a concrete config and missing `oauth_token`. -/
theorem tumblr_callback_missing_param_frame_witness :
    tumblr_callback (fun _ _ _ => Except.ok ["k", "s"]) Option.none (some "verif")
        [("request_token", PyVal.str "rt"), ("request_secret", PyVal.str "rs")]
      = ([("request_token", PyVal.str "rt"), ("request_secret", PyVal.str "rs")],
         Except.ok (Resp.redirectTo "settings")) :=
  tumblr_callback_missing_param_frame _ _ _ _ (Or.inl rfl)

/-! ## Claim C5 -/

/-- A Tumblr config mid-flow: the request-token pair is persisted,
awaiting the callback. -/
def cexCfgC5 : Config :=
  [("service_id", PyVal.str "tumblr"),
   ("request_token", PyVal.str "rt"),
   ("request_secret", PyVal.str "rs")]

/-- Claim C5 counterexample: when the access-token exchange fails, the
exception escapes `tumblr_callback` before the `del` statements run, so
the `request_token` and `request_secret` fields are still present — they
are not deleted on the failure path. -/
theorem tumblr_request_fields_survive_failed_exchange :
    (tumblr_callback (fun _ _ _ => Except.error (ExtErr.extErr "exchange failed"))
        (some "tok") (some "ver") cexCfgC5).2
      = Except.error (ExtErr.extErr "exchange failed") ∧
    hasKey (tumblr_callback (fun _ _ _ => Except.error (ExtErr.extErr "exchange failed"))
        (some "tok") (some "ver") cexCfgC5).1 "request_token" = true ∧
    hasKey (tumblr_callback (fun _ _ _ => Except.error (ExtErr.extErr "exchange failed"))
        (some "tok") (some "ver") cexCfgC5).1 "request_secret" = true := by
  refine ⟨rfl, by decide, by decide⟩

/-- Claim C5 (amended): the request-token fields are deleted only on the
success path of the access-token exchange; on the failure path the
exception propagates and the config — request-token fields included — is
left exactly as it was. -/
theorem tumblr_callback_cleanup_on_success_only
    (gat : PyVal → PyVal → String → Except ExtErr (List String))
    (tok ver : Option String) (cfg : Config)
    (htok : argTruthy tok = true) (hver : argTruthy ver = true) :
    (∀ ats, gat (getitem cfg "request_token") (getitem cfg "request_secret") (ver.getD "")
        = Except.ok ats →
      hasKey (tumblr_callback gat tok ver cfg).1 "request_token" = false ∧
      hasKey (tumblr_callback gat tok ver cfg).1 "request_secret" = false) ∧
    (∀ e, gat (getitem cfg "request_token") (getitem cfg "request_secret") (ver.getD "")
        = Except.error e →
      (tumblr_callback gat tok ver cfg).1 = cfg ∧
      (tumblr_callback gat tok ver cfg).2 = Except.error e) := by
  constructor
  · intro ats hgat
    simp only [tumblr_callback, htok, hver, Bool.and_self, if_true, hgat]
    unfold hasKey
    refine ⟨?_, ?_⟩
    · rw [lookupC_dictDel_ne _ _ _ (by decide), lookupC_dictDel_self]
      rfl
    · rw [lookupC_dictDel_self]
      rfl
  · intro e hgat
    simp [tumblr_callback, htok, hver, hgat]

/-- A successful external access-token exchange. -/
def gatOkC5 : PyVal → PyVal → String → Except ExtErr (List String) :=
  fun _ _ _ => Except.ok ["at1", "at2"]

/-- Witness for the amended C5 theorem: on a concrete successful
exchange, both request-token fields are gone afterwards. -/
theorem tumblr_callback_cleanup_on_success_only_witness :
    hasKey (tumblr_callback gatOkC5 (some "tok") (some "ver") cexCfgC5).1
        "request_token" = false ∧
    hasKey (tumblr_callback gatOkC5 (some "tok") (some "ver") cexCfgC5).1
        "request_secret" = false :=
  (tumblr_callback_cleanup_on_success_only gatOkC5 (some "tok") (some "ver") cexCfgC5
    (by decide) (by decide)).1 ["at1", "at2"] rfl

/-! ## Claim C6 -/

/-- Claim C6 counterexample: with no access token stored — so the
provider is not enabled — `DropboxService.process` does not fail with
`NotConfiguredError`; it hands the `None` credential to the external
client and surfaces that client's failure instead. -/
theorem dropbox_process_unconfigured_not_notConfigured :
    is_enabled ([] : Config) = false ∧
    dropboxProcess (fun _ _ => Except.error "401 unauthorized") []
        ⟨"x.txt", "hello", "t"⟩
      = Except.error (AppErr.externalError "401 unauthorized") ∧
    AppErr.externalError "401 unauthorized" ≠ AppErr.notConfiguredError := by
  refine ⟨by decide, rfl, by decide⟩

/-- Claim C6 (amended): neither `DropboxService.process` nor
`TumblrService.process` performs any availability or enablement check —
no code path produces `NotConfiguredError` for any config (configured or
not), payload, or external-client behaviour; the stored (possibly `None`)
credential goes straight to the client and any failure is the client's. -/
theorem process_never_fails_notConfigured
    (putFile post : PyVal → Payload → Except String PyVal)
    (cfg : Config) (p : Payload) :
    dropboxProcess putFile cfg p ≠ Except.error AppErr.notConfiguredError ∧
    tumblrProcess post cfg p ≠ Except.error AppErr.notConfiguredError := by
  refine ⟨?_, ?_⟩
  · unfold dropboxProcess
    cases h : putFile (getitem cfg "access_token") p with
    | ok m => simp
    | error m => simp
  · unfold tumblrProcess
    cases h : post (getitem cfg "access_token") p with
    | ok m => simp
    | error m => simp

/-! ## Claim C1 -/

/-- A registered provider whose `process` raises. -/
def failingSvc : MService :=
  { is_available := true, is_enabled := true,
    process := fun _ => Except.error (ProcErr.procError "boom") }

/-- A registered provider whose `process` succeeds with a truthy result. -/
def okSvc : MService :=
  { is_available := true, is_enabled := true,
    process := fun _ => Except.ok (PyVal.str "meta") }

/-- The payload used in concrete broadcast runs. -/
def cexPayload : Payload := ⟨"x.txt", "hello", "t"⟩

/-- Claim C1 counterexample: with registry `[B (fails), A (ok)]`, the
exception from B escapes the loop — broadcast itself fails, and A, though
available and enabled, is never dispatched (no event for A) and appears
in no result map. -/
theorem giffed_exception_escapes :
    (giffedLoop [("B", failingSvc), ("A", okSvc)] cexPayload).2
      = Except.error (ProcErr.procError "boom") ∧
    ((giffedLoop [("B", failingSvc), ("A", okSvc)] cexPayload).2).isOk = false ∧
    (giffedLoop [("B", failingSvc), ("A", okSvc)] cexPayload).1
      = [Ev.checkAvail "B" true, Ev.checkEnabled "B" true, Ev.callProcess "B"] :=
  ⟨rfl, rfl, rfl⟩

/-- Claim C1 (amended): `giffed` has no per-provider exception handling.
When the loop reaches an available-and-enabled provider whose `process`
raises (every earlier provider having either failed the guard or
succeeded), the exception propagates out of broadcast: the run ends with
that error, no result map is produced, and the event trace stops at the
failing provider — providers after it are never checked or dispatched. -/
theorem giffed_failure_aborts_broadcast (pre post : List (String × MService))
    (sid : String) (s : MService) (p : Payload) (e : ProcErr)
    (hpre : ∀ x ∈ pre, x.2.is_available = true → x.2.is_enabled = true →
      (x.2.process p).isOk = true)
    (ha : s.is_available = true) (he : s.is_enabled = true)
    (hp : s.process p = Except.error e) :
    giffedLoop (pre ++ (sid, s) :: post) p
      = ((giffedLoop pre p).1 ++
          [Ev.checkAvail sid true, Ev.checkEnabled sid true, Ev.callProcess sid],
         Except.error e) := by
  induction pre with
  | nil => simp [giffedLoop, ha, he, hp]
  | cons hd tl ih =>
    obtain ⟨sid0, s0⟩ := hd
    have htl : ∀ x ∈ tl, x.2.is_available = true → x.2.is_enabled = true →
        (x.2.process p).isOk = true :=
      fun x hx => hpre x (List.mem_cons_of_mem _ hx)
    have ih' := ih htl
    cases ha0 : s0.is_available with
    | false =>
      simp [giffedLoop, ha0, ih']
    | true =>
      cases he0 : s0.is_enabled with
      | false =>
        simp [giffedLoop, ha0, he0, ih']
      | true =>
        have hok0 := hpre (sid0, s0) (List.mem_cons_self _ _) ha0 he0
        cases hp0 : s0.process p with
        | error e0 => rw [hp0] at hok0; cases hok0
        | ok m0 =>
          cases hrest : giffedLoop tl p with
          | mk evs2 res2 =>
            cases res2 <;> simp [giffedLoop, ha0, he0, hp0, ih', hrest]

/-- Witness for the amended C1 theorem: a succeeding provider G ahead of
the failing provider B and another provider H behind it; the run ends in
B's error, with G dispatched and H untouched. -/
theorem giffed_failure_aborts_broadcast_witness :
    giffedLoop [("G", okSvc), ("B", failingSvc), ("H", okSvc)] cexPayload
      = ((giffedLoop [("G", okSvc)] cexPayload).1 ++
          [Ev.checkAvail "B" true, Ev.checkEnabled "B" true, Ev.callProcess "B"],
         Except.error (ProcErr.procError "boom")) :=
  giffed_failure_aborts_broadcast [("G", okSvc)] [("H", okSvc)] "B" failingSvc
    cexPayload (ProcErr.procError "boom")
    (by
      intro x hx
      rw [List.mem_singleton] at hx
      subst hx
      intro _ _
      rfl)
    rfl rfl rfl

/-! ## Claim C4 -/

/-- Helper: a `process` call recorded in the dispatch trace always comes
from a registered provider that passed both guards. -/
theorem callProcess_mem_origin (reg : List (String × MService)) (p : Payload)
    (sid2 : String) :
    Ev.callProcess sid2 ∈ (giffedLoop reg p).1 →
    ∃ s2, (sid2, s2) ∈ reg ∧ s2.is_available = true ∧ s2.is_enabled = true := by
  induction reg with
  | nil => intro hmem; simp [giffedLoop] at hmem
  | cons hd tl ih =>
    obtain ⟨sid0, s0⟩ := hd
    intro hmem
    cases hrest : giffedLoop tl p with
    | mk evs2 res2 =>
      cases ha0 : s0.is_available with
      | false =>
        simp [giffedLoop, ha0, hrest] at hmem
        obtain ⟨s2, h1, h2, h3⟩ := ih (by rw [hrest]; exact hmem)
        exact ⟨s2, List.mem_cons_of_mem _ h1, h2, h3⟩
      | true =>
        cases he0 : s0.is_enabled with
        | false =>
          simp [giffedLoop, ha0, he0, hrest] at hmem
          obtain ⟨s2, h1, h2, h3⟩ := ih (by rw [hrest]; exact hmem)
          exact ⟨s2, List.mem_cons_of_mem _ h1, h2, h3⟩
        | true =>
          cases hp0 : s0.process p with
          | error e0 =>
            simp [giffedLoop, ha0, he0, hp0] at hmem
            subst hmem
            exact ⟨s0, List.mem_cons_self _ _, ha0, he0⟩
          | ok m0 =>
            have hmem3 : sid2 = sid0 ∨ Ev.callProcess sid2 ∈ evs2 := by
              cases res2 <;> simp [giffedLoop, ha0, he0, hp0, hrest] at hmem <;>
                exact hmem
            rcases hmem3 with h | h
            · subst h; exact ⟨s0, List.mem_cons_self _ _, ha0, he0⟩
            · obtain ⟨s2, h1, h2, h3⟩ := ih (by rw [hrest]; exact h)
              exact ⟨s2, List.mem_cons_of_mem _ h1, h2, h3⟩

/-- Helper: an enablement check recorded in the trace always comes from a
registered provider whose availability check already passed — Python's
short-circuiting `and` never reads `is_enabled` of an unavailable
provider. -/
theorem checkEnabled_mem_origin (reg : List (String × MService)) (p : Payload)
    (sid2 : String) (b : Bool) :
    Ev.checkEnabled sid2 b ∈ (giffedLoop reg p).1 →
    ∃ s2, (sid2, s2) ∈ reg ∧ s2.is_available = true := by
  induction reg with
  | nil => intro hmem; simp [giffedLoop] at hmem
  | cons hd tl ih =>
    obtain ⟨sid0, s0⟩ := hd
    intro hmem
    cases hrest : giffedLoop tl p with
    | mk evs2 res2 =>
      cases ha0 : s0.is_available with
      | false =>
        simp [giffedLoop, ha0, hrest] at hmem
        obtain ⟨s2, h1, h2⟩ := ih (by rw [hrest]; exact hmem)
        exact ⟨s2, List.mem_cons_of_mem _ h1, h2⟩
      | true =>
        cases he0 : s0.is_enabled with
        | false =>
          simp [giffedLoop, ha0, he0, hrest] at hmem
          rcases hmem with ⟨h1, -⟩ | h
          · subst h1; exact ⟨s0, List.mem_cons_self _ _, ha0⟩
          · obtain ⟨s2, h1, h2⟩ := ih (by rw [hrest]; exact h)
            exact ⟨s2, List.mem_cons_of_mem _ h1, h2⟩
        | true =>
          cases hp0 : s0.process p with
          | error e0 =>
            simp [giffedLoop, ha0, he0, hp0] at hmem
            obtain ⟨h1, -⟩ := hmem
            subst h1
            exact ⟨s0, List.mem_cons_self _ _, ha0⟩
          | ok m0 =>
            have hmem3 : (sid2 = sid0 ∧ b = true) ∨ Ev.checkEnabled sid2 b ∈ evs2 := by
              cases res2 <;> simp [giffedLoop, ha0, he0, hp0, hrest] at hmem <;>
                exact hmem
            rcases hmem3 with ⟨h1, -⟩ | h
            · subst h1; exact ⟨s0, List.mem_cons_self _ _, ha0⟩
            · obtain ⟨s2, h1, h2⟩ := ih (by rw [hrest]; exact h)
              exact ⟨s2, List.mem_cons_of_mem _ h1, h2⟩

/-- Scenario provider A: available and enabled; its submission succeeds. -/
def svcA : MService :=
  { is_available := true, is_enabled := true,
    process := fun _ => Except.ok (PyVal.str "metaA") }

/-- Scenario provider B: available but disabled (no access token). -/
def svcB : MService :=
  { is_available := true, is_enabled := false,
    process := fun _ => Except.ok (PyVal.str "metaB") }

/-- Scenario provider C: unavailable (no client credentials). -/
def svcC : MService :=
  { is_available := false, is_enabled := false,
    process := fun _ => Except.ok (PyVal.str "metaC") }

/-- The registry of the spec's scenario. -/
def scenarioReg : List (String × MService) := [("A", svcA), ("B", svcB), ("C", svcC)]

/-- The scenario payload `{filename: "x.txt", data: "hello"}`. -/
def scenarioPayload : Payload := ⟨"x.txt", "hello", "t"⟩

/-- Claim C4: `process` is invoked only for providers that are available
and enabled, availability is checked before enablement (an enablement
check is recorded only for available providers), and in the scenario
`{A: available+enabled, B: available+disabled, C: unavailable}` the
result map contains exactly the key A — the trace also shows B's
enablement checked but B never dispatched, and C short-circuited after
the availability check. -/
theorem giffed_guard_order_and_scenario :
    (∀ reg p sid2, Ev.callProcess sid2 ∈ (giffedLoop reg p).1 →
      ∃ s2, (sid2, s2) ∈ reg ∧ s2.is_available = true ∧ s2.is_enabled = true) ∧
    (∀ reg p sid2 b, Ev.checkEnabled sid2 b ∈ (giffedLoop reg p).1 →
      ∃ s2, (sid2, s2) ∈ reg ∧ s2.is_available = true) ∧
    giffedLoop scenarioReg scenarioPayload
      = ([Ev.checkAvail "A" true, Ev.checkEnabled "A" true, Ev.callProcess "A",
          Ev.checkAvail "B" true, Ev.checkEnabled "B" false,
          Ev.checkAvail "C" false],
         Except.ok [("A", PyVal.str "metaA")]) :=
  ⟨fun reg p sid2 => callProcess_mem_origin reg p sid2,
   fun reg p sid2 b => checkEnabled_mem_origin reg p sid2 b,
   rfl⟩

/-- Witness for C4: in the scenario run, A's recorded `process` call
indeed belongs to an available-and-enabled registered provider. -/
theorem giffed_guard_order_and_scenario_witness :
    ∃ s2, ("A", s2) ∈ scenarioReg ∧ s2.is_available = true ∧ s2.is_enabled = true :=
  giffed_guard_order_and_scenario.1 scenarioReg scenarioPayload "A" (by decide)

/-! ## Claim C8 -/

/-- Helper: if every registry entry keyed `sid` is the service `s`, and
`s.process` succeeds with a falsy result, then `sid` is absent from any
result map the loop returns (`if meta:` filters it out). -/
theorem giffed_omits_sid (sid : String) (s : MService) (p : Payload) (v : PyVal)
    (hok : s.process p = Except.ok v) (hv : truthy v = false) :
    ∀ reg evs m, (∀ s2, (sid, s2) ∈ reg → s2 = s) →
      giffedLoop reg p = (evs, Except.ok m) → lookupC m sid = Option.none := by
  intro reg
  induction reg with
  | nil =>
    intro evs m _ hloop
    simp [giffedLoop] at hloop
    rw [hloop.2]
    rfl
  | cons hd tl ih =>
    obtain ⟨sid0, s0⟩ := hd
    intro evs m hkeys hloop
    have htl : ∀ s2, (sid, s2) ∈ tl → s2 = s :=
      fun s2 h2 => hkeys s2 (List.mem_cons_of_mem _ h2)
    cases hrest : giffedLoop tl p with
    | mk evs2 res2 =>
      cases ha0 : s0.is_available with
      | false =>
        simp [giffedLoop, ha0, hrest] at hloop
        exact ih evs2 m htl (by rw [hrest, hloop.2])
      | true =>
        cases he0 : s0.is_enabled with
        | false =>
          simp [giffedLoop, ha0, he0, hrest] at hloop
          exact ih evs2 m htl (by rw [hrest, hloop.2])
        | true =>
          cases hp0 : s0.process p with
          | error e0 => simp [giffedLoop, ha0, he0, hp0, hrest] at hloop
          | ok m0 =>
            cases res2 with
            | error e2 => simp [giffedLoop, ha0, he0, hp0, hrest] at hloop
            | ok m2 =>
              simp [giffedLoop, ha0, he0, hp0, hrest] at hloop
              have hmap := hloop.2
              by_cases hsid : sid0 = sid
              · subst hsid
                have hs0 : s0 = s := hkeys s0 (List.mem_cons_self _ _)
                subst hs0
                rw [hok] at hp0
                have hm0 : m0 = v := (Except.ok.inj hp0).symm
                subst hm0
                rw [hv] at hmap
                simp at hmap
                exact ih evs2 m htl (by rw [hrest, ← hmap])
              · cases htr : truthy m0 with
                | false =>
                  rw [htr] at hmap
                  simp at hmap
                  exact ih evs2 m htl (by rw [hrest, ← hmap])
                | true =>
                  rw [htr] at hmap
                  simp at hmap
                  rw [← hmap]
                  simp only [lookupC, hsid, if_false]
                  exact ih evs2 m2 htl (by rw [hrest])

/-- Claim C8: an available-and-enabled provider whose `process` succeeds
but returns a falsy result is omitted from the broadcast result map
(`if meta:` drops it), exactly as if it had not been dispatched to. -/
theorem giffed_falsy_meta_omitted (reg : List (String × MService)) (p : Payload)
    (sid : String) (s : MService) (v : PyVal) (evs : List Ev)
    (m : List (String × PyVal))
    (hmem : (sid, s) ∈ reg) (huniq : ∀ s2, (sid, s2) ∈ reg → s2 = s)
    (havail : s.is_available = true) (henab : s.is_enabled = true)
    (hok : s.process p = Except.ok v) (hv : truthy v = false)
    (hloop : giffedLoop reg p = (evs, Except.ok m)) :
    lookupC m sid = Option.none :=
  giffed_omits_sid sid s p v hok hv reg evs m huniq hloop

/-- A provider whose submission succeeds but returns an empty result. -/
def emptyMetaSvc : MService :=
  { is_available := true, is_enabled := true,
    process := fun _ => Except.ok (PyVal.str "") }

/-- Witness for C8: the provider E succeeds with an empty string; the
loop returns the empty result map, with E omitted. -/
theorem giffed_falsy_meta_omitted_witness :
    lookupC ([] : List (String × PyVal)) "E" = Option.none :=
  giffed_falsy_meta_omitted [("E", emptyMetaSvc)] ⟨"x.txt", "hello", "t"⟩
    "E" emptyMetaSvc (PyVal.str "")
    [Ev.checkAvail "E" true, Ev.checkEnabled "E" true, Ev.callProcess "E"] []
    (List.mem_singleton.mpr rfl)
    (by
      intro s2 h2
      rw [List.mem_singleton] at h2
      exact congrArg Prod.snd h2)
    rfl rfl rfl (by decide) rfl

end Jifbox
